import Mathlib

/-!
Verification development for the translation fallback chain, the browser
translation hook, the narrative auto-retranslation controller, and the
crisis-alert poller of the PR0 repository.

The embedding is shallow: the JavaScript/TypeScript functions are translated
into executable Lean definitions.  Strings model JS strings (one `Char` per
JS code unit), JS string helpers (`slice`, `trim`, `includes`, `join`,
`length`) are modelled by structurally recursive Lean functions on the
character list so every definition evaluates by kernel reduction, and the
behaviour of each remote HTTP service is a parameter (an oracle function
from the request actually sent to the outcome observed).
-/

/-- JS `string.length` (code units modelled as characters). -/
def jsLength (s : String) : Nat := s.data.length

/-- JS `string.slice(0, n)`. -/
def jsSlice (s : String) (n : Nat) : String := ⟨s.data.take n⟩

/-- JS `string.trim()` (whitespace stripped from both ends). -/
def jsTrim (s : String) : String :=
  ⟨((s.data.dropWhile Char.isWhitespace).reverse.dropWhile Char.isWhitespace).reverse⟩

/-- Whether `pat` occurs at the start of `l`. -/
def listStartsWith : List Char → List Char → Bool
  | [], _ => true
  | _ :: _, [] => false
  | a :: as, b :: bs => a == b && listStartsWith as bs

/-- Whether `pat` occurs somewhere inside `l` (JS `includes`). -/
def listContainsSub (pat : List Char) : List Char → Bool
  | [] => pat.isEmpty
  | c :: rest => listStartsWith pat (c :: rest) || listContainsSub pat rest

/-- JS `s.includes(pat)`. -/
def strContains (s pat : String) : Bool := listContainsSub pat.data s.data

/-- JS `array.join(sep)` for an array of strings. -/
def jsJoin (sep : String) : List String → String
  | [] => ""
  | [x] => x
  | x :: xs => x ++ sep ++ jsJoin sep xs

/-! ## Language tables of the Google-based translate route (src/unnamed/part_002) -/

/-- Table `LANGUAGE_NAMES`: language code to display name.  `none` models a
missing key (`targetLang in LANGUAGE_NAMES` is `false`). -/
def LANGUAGE_NAMES (code : String) : Option String :=
  if code = "en" then some "English"
  else if code = "hi" then some "Hindi"
  else if code = "bn" then some "Bengali"
  else if code = "ta" then some "Tamil"
  else if code = "te" then some "Telugu"
  else if code = "kn" then some "Kannada"
  else if code = "ml" then some "Malayalam"
  else if code = "mr" then some "Marathi"
  else if code = "gu" then some "Gujarati"
  else if code = "pa" then some "Punjabi"
  else if code = "or" then some "Odia"
  else if code = "as" then some "Assamese"
  else if code = "sa" then some "Sanskrit"
  else if code = "sd" then some "Sindhi"
  else if code = "ur" then some "Urdu"
  else if code = "ne" then some "Nepali"
  else if code = "bo" then some "Tibetan"
  else if code = "ks" then some "Kashmiri"
  else if code = "mni" then some "Meitei (Manipuri)"
  else if code = "sat" then some "Santali"
  else if code = "brx" then some "Bodo"
  else if code = "doi" then some "Dogri"
  else if code = "kok" then some "Konkani"
  else if code = "mai" then some "Maithili"
  else if code = "gom" then some "Konkani"
  else if code = "dcc" then some "Deccan"
  else none

/-- Table `GOOGLE_LANGUAGE_CODES`: app language code to Google API code.
`none` models an unmapped code. -/
def GOOGLE_LANGUAGE_CODES (code : String) : Option String :=
  if code = "en" then some "en"
  else if code = "hi" then some "hi"
  else if code = "bn" then some "bn"
  else if code = "ta" then some "ta"
  else if code = "te" then some "te"
  else if code = "kn" then some "kn"
  else if code = "ml" then some "ml"
  else if code = "mr" then some "mr"
  else if code = "gu" then some "gu"
  else if code = "pa" then some "pa"
  else if code = "or" then some "or"
  else if code = "as" then some "as"
  else if code = "sa" then some "sa"
  else if code = "sd" then some "sd"
  else if code = "ur" then some "ur"
  else if code = "ne" then some "ne"
  else if code = "bo" then some "bo"
  else if code = "ks" then some "ks"
  else if code = "mni" then some "mni-Mtei"
  else if code = "sat" then some "sat"
  else if code = "brx" then some "brx"
  else if code = "doi" then some "doi"
  else if code = "kok" then some "gom"
  else if code = "mai" then some "mai"
  else if code = "gom" then some "gom"
  else none

/-! ## Translation provider chain (server route, src/unnamed/part_002 lines 63-223) -/

/-- Outcome of the Google Translate HTTP exchange for a given request body:
`thrown` covers a rejected `fetch` or a rejected body read (network down,
the 8-second `AbortSignal.timeout` firing, malformed body) — since
`translateWithGoogleAPI` has no try/catch, that exception propagates out of
the function; `fail` covers a non-ok HTTP status, an `error` payload inside
a 200 response, and a missing/non-array `translations` field, all of which
the function itself turns into `null`; `success entries` carries the
`translatedText` of each entry (already defaulted to `""` when absent), in
order. -/
inductive GoogleOutcome where
  | thrown
  | fail
  | success (entries : List String)

/-- Environment of `translateWithGoogleAPI`: whether
`GOOGLE_TRANSLATE_API_KEY` is configured, and the remote service's behaviour
as a function of the text actually sent. -/
structure GoogleEnv where
  hasApiKey : Bool
  respond : String → GoogleOutcome

/-- Outcome of the MyMemory HTTP exchange: `fail` covers a thrown fetch, a
non-ok status, a `responseStatus` other than 200 and a missing
`responseData.translatedText`; `success t` carries
`responseData.translatedText` (possibly `""`, which the code treats as
falsy). -/
inductive MyMemoryOutcome where
  | fail
  | success (translatedText : String)

/-- Environment of `translateWithMyMemory`: the remote behaviour as a
function of the (truncated) text actually sent. -/
structure MyMemoryEnv where
  respond : String → MyMemoryOutcome

/-- Result of one provider attempt: the text actually sent over the network
(`none` when no request was made) and the value the function returned. -/
structure ProviderCall where
  sent : Option String
  result : Option String
deriving DecidableEq, Repr

/-- Truncation note appended by `translateWithGoogleAPI` when the input
exceeded 4500 characters. -/
def googleTruncNote : String :=
  "\n\n[Note: Translation truncated to 4,500 characters to meet Google API limits]"

/-- Truncation note appended by `translateWithMyMemory` when the input
exceeded 500 characters. -/
def myMemoryTruncNote : String :=
  "\n\n[Note: Translation truncated to 500 characters due to MyMemory free tier limits]"

/-- Completed-or-thrown result of the Google attempt: `thrown` models the
exception escaping `translateWithGoogleAPI` (the function has no try/catch,
unlike `translateWithMyMemory`); `completed call` models a normal return of
`string | null`. -/
inductive GoogleAttempt where
  | thrown
  | completed (call : ProviderCall)
deriving DecidableEq, Repr

/-- Function `translateWithGoogleAPI` of the Google-based translate route: returns
`null` (here `completed` with result `none`) without a request when the API
key is missing or either language code is unmapped; truncates the input to
4500 characters before sending; turns a non-ok status, an error payload and
an empty translation array or joined-and-trimmed translation into `null`;
has no try/catch, so a rejected fetch or body read (`GoogleOutcome.thrown`)
propagates out of the function as an exception; appends the truncation note
when the input was truncated. -/
def translateWithGoogleAPI (env : GoogleEnv) (text sourceLang targetLang : String) :
    GoogleAttempt :=
  if !env.hasApiKey then .completed ⟨none, none⟩
  else
    match GOOGLE_LANGUAGE_CODES sourceLang, GOOGLE_LANGUAGE_CODES targetLang with
    | some _, some _ =>
      let textToTranslate := if jsLength text > 4500 then jsSlice text 4500 else text
      match env.respond textToTranslate with
      | .thrown => .thrown
      | .fail => .completed ⟨some textToTranslate, none⟩
      | .success entries =>
        if entries.isEmpty then .completed ⟨some textToTranslate, none⟩
        else
          let translated := jsTrim (jsJoin " " entries)
          if translated = "" then .completed ⟨some textToTranslate, none⟩
          else if jsLength text > 4500 then
            .completed ⟨some textToTranslate, some (translated ++ googleTruncNote)⟩
          else .completed ⟨some textToTranslate, some translated⟩
    | _, _ => .completed ⟨none, none⟩

/-- Function `translateWithMyMemory` of the Google-based translate route: truncates
the input to 500 characters before sending, treats every failure as a soft
failure (`none`), and appends the truncation note when the input was
truncated. -/
def translateWithMyMemory (env : MyMemoryEnv) (text _sourceLang _targetLang : String) :
    ProviderCall :=
  let truncated := if jsLength text > 500 then jsSlice text 500 else text
  match env.respond truncated with
  | .fail => ⟨some truncated, none⟩
  | .success t =>
    if t = "" then ⟨some truncated, none⟩
    else if jsLength text > 500 then ⟨some truncated, some (t ++ myMemoryTruncNote)⟩
    else ⟨some truncated, some t⟩

/-- JSON response of the translate route, together with which provider
functions were invoked during the request. -/
structure RouteResult where
  status : Nat
  translatedText : Option String
  timeMs : Option Nat
  source : Option String
  isFallback : Bool
  note : Option String
  error : Option String
  googleInvoked : Bool
  myMemoryInvoked : Bool
deriving DecidableEq, Repr

/-- Display name used in the degraded note: `LANGUAGE_NAMES[targetLang] ||
targetLang`. -/
def langNameFor (targetLang : String) : String :=
  (LANGUAGE_NAMES targetLang).getD targetLang

/-- The terminal degraded 503 response of the translate route. -/
def degradedResult (text targetLang : String) (mmInvoked : Bool) : RouteResult :=
  { status := 503
    translatedText := some text
    timeMs := some 0
    source := some "none"
    isFallback := true
    note := some ("Translation unavailable for " ++ langNameFor targetLang ++
      ". Returned original text.")
    error := none
    googleInvoked := true
    myMemoryInvoked := mmInvoked }

/-- The handler's catch-all 500 response: reached when an exception escapes
the try block — in particular when the Google attempt throws.  The original
text is replaced, no note or fallback marker is set, and MyMemory is never
attempted. -/
def serverErrorResult : RouteResult :=
  { status := 500
    translatedText := some "Translation service error. Please try again."
    timeMs := none
    source := none
    isFallback := false
    note := none
    error := some "Failed to process translation"
    googleInvoked := true
    myMemoryInvoked := false }

namespace TranslateRoute

/-- Handler `POST` of the Google-based translate route (src/unnamed/part_002
lines 158-223): missing-fields check (JS truthiness: empty string is
missing), same-language no-op, Google attempt, conditional MyMemory
fallback, terminal degraded response — all inside a try whose catch returns
the 500 `serverErrorResult`; since `translateWithGoogleAPI` has no try/catch
of its own, a thrown Google fetch lands in that catch and short-circuits
the rest of the chain.  (The catch also covers a malformed request body;
the body is modelled here as already-parsed string fields.)
`elapsedGoogle` and `elapsedFallback` stand for the observed `Date.now()`
differences. -/
def POST (genv : GoogleEnv) (menv : MyMemoryEnv) (elapsedGoogle elapsedFallback : Nat)
    (text sourceLang targetLang : String) : RouteResult :=
  if text = "" ∨ sourceLang = "" ∨ targetLang = "" then
    { status := 400, translatedText := none, timeMs := none, source := none
      isFallback := false, note := none
      error := some "Missing required fields: text, sourceLang, targetLang"
      googleInvoked := false, myMemoryInvoked := false }
  else if sourceLang = targetLang then
    { status := 200, translatedText := some text, timeMs := some 0
      source := some "noop", isFallback := false, note := none, error := none
      googleInvoked := false, myMemoryInvoked := false }
  else
    match translateWithGoogleAPI genv text sourceLang targetLang with
    | .thrown => serverErrorResult
    | .completed gcall =>
      match gcall.result with
      | some t =>
        { status := 200, translatedText := some t, timeMs := some elapsedGoogle
          source := some "google", isFallback := false, note := none, error := none
          googleInvoked := true, myMemoryInvoked := false }
      | none =>
        if sourceLang = "en" ∧ (LANGUAGE_NAMES targetLang).isSome then
          match (translateWithMyMemory menv text sourceLang targetLang).result with
          | some t =>
            { status := 200, translatedText := some t, timeMs := some elapsedFallback
              source := some "cloud-fallback", isFallback := false
              note := some "Google Translate unavailable, using MyMemory free tier fallback."
              error := none, googleInvoked := true, myMemoryInvoked := true }
          | none => degradedResult text targetLang true
        else degradedResult text targetLang false

end TranslateRoute

/-! ## Translation client hook (src/unnamed/part_000, `useTranslation.translate`) -/

/-- Body of a structurally valid JSON response as the hook reads it:
`isFallback` truthiness, the `source` field, and `translatedText` (`none`
models an absent field; `some ""` is falsy for the `if (data.translatedText)`
check). -/
structure RespBody where
  isFallback : Bool
  source : Option String
  translatedText : Option String
deriving DecidableEq, Repr

/-- Outcome of the hook's `fetch` of `/api/translate`: the promise rejected
(`netError`), or a response arrived with `ok` status flag and a body that
either parses as JSON (`some body`) or makes `response.json()` reject
(`none`). -/
inductive FetchOutcome where
  | netError
  | response (ok : Bool) (body : Option RespBody)
deriving DecidableEq, Repr

/-- The hook's two pieces of React state. -/
structure HookState where
  isTranslating : Bool
  error : Option String
deriving DecidableEq, Repr

/-- One completed run of the hook's `translate`: the string the promise
resolved with, the state after the run, whether a network request was made,
and whether the in-body `isFallback`/`source` inspection was reached. -/
structure HookRun where
  result : String
  finalState : HookState
  fetched : Bool
  inspectedBody : Bool
deriving DecidableEq, Repr

namespace UseTranslation

/-- Function `translate` of the `useTranslation` hook: empty/whitespace-only text
returns `""` immediately (state untouched, no request); otherwise the busy
flag is set, the previous error cleared, and the fetch outcome is handled —
every failure path is caught, sets the error message and resolves with the
original text, and the `finally` clause clears the busy flag on every path.
The function is total: no outcome rejects to the caller. -/
def translate (outcome : FetchOutcome) (prev : HookState)
    (text _sourceLang _targetLang : String) : HookRun :=
  if jsTrim text = "" then
    { result := "", finalState := prev, fetched := false, inspectedBody := false }
  else
    match outcome with
    | .netError =>
      { result := text, finalState := { isTranslating := false, error := some "Failed to translate text" }
        fetched := true, inspectedBody := false }
    | .response ok body =>
      if !ok then
        { result := text, finalState := { isTranslating := false, error := some "Failed to translate text" }
          fetched := true, inspectedBody := false }
      else
        match body with
        | none =>
          { result := text, finalState := { isTranslating := false, error := some "Failed to translate text" }
            fetched := true, inspectedBody := false }
        | some d =>
          if d.isFallback ∧ d.source = some "none" then
            { result := text, finalState := { isTranslating := false, error := none }
              fetched := true, inspectedBody := true }
          else
            match d.translatedText with
            | some s =>
              if s ≠ "" then
                { result := s, finalState := { isTranslating := false, error := none }
                  fetched := true, inspectedBody := true }
              else
                { result := text, finalState := { isTranslating := false, error := none }
                  fetched := true, inspectedBody := true }
            | none =>
              { result := text, finalState := { isTranslating := false, error := none }
                fetched := true, inspectedBody := true }

/-- A transport-level failure mode of the fetch: rejected request, non-ok
HTTP status, or a body that is not JSON. -/
def isTransportFailure : FetchOutcome → Bool
  | .netError => true
  | .response ok body => !ok || body.isNone

end UseTranslation

/-- Field `Response.ok` of the Fetch API: status in the range 200-299. -/
def okOfStatus (status : Nat) : Bool := 200 ≤ status && status < 300

/-! ## Narrative auto-retranslation controller
(src/app/regional-narrative/page.tsx lines 26-112) -/

/-- The 15-entry `supportedLanguages` catalog of the regional-narrative
page: (code, display name). -/
def supportedLanguages : List (String × String) :=
  [("hi", "Hindi"), ("bn", "Bengali"), ("ta", "Tamil"), ("te", "Telugu"),
   ("kn", "Kannada"), ("ml", "Malayalam"), ("mr", "Marathi"), ("gu", "Gujarati"),
   ("pa", "Punjabi"), ("or", "Odia"), ("as", "Assamese"), ("ur", "Urdu"),
   ("ne", "Nepali"), ("sa", "Sanskrit"), ("mni", "Manipuri")]

/-- Lookup `supportedLanguages.find(l => l.code === targetLang)?.name || targetLang`. -/
def supportedLangName (code : String) : String :=
  ((supportedLanguages.find? (fun p => p.1 = code)).map (fun p => p.2)).getD code

/-- The sentinel check of `handleTranslate`: the text already looks like a
previously generated placeholder/diagnostic note. -/
def sentinelText (t : String) : Bool :=
  strContains t "[Translation placeholder" || strContains t "[Note: Translation service"

/-- The heavy horizontal rule (40 × U+2501) plus diagnostic note appended by
`handleTranslate` when the hook handed back the unchanged or empty text. -/
def serviceUnavailableNote (langName : String) : String :=
  "\n\n━━━━━━━━━━━━━━━━━━━━━━━━━━━━━━━━━━━━━━━━\n[Note: Translation service is not available. The narrative above is in English. For full "
    ++ langName ++ " translation support, configure the IndicTrans2 service.]"

/-- State of one narrative session as the controller sees it:
`originalGeneratedText` (English source of truth), `generatedText` (the
displayed text), `selectedLanguage`, the two refs, and the list of languages
with an in-flight translation request, in issue order. -/
structure NarrState where
  originalGeneratedText : String
  generatedText : String
  selectedLanguage : String
  lastTranslatedLangRef : String
  hasShownTranslationNoteRef : Bool
  pending : List String
deriving DecidableEq, Repr

namespace RegionalNarrative

/-- Guard of the auto-translate effect (page.tsx line 93): non-empty
original text, a selected non-English language, and a language different
from the last translated one. -/
def effectGuard (s : NarrState) : Bool :=
  s.originalGeneratedText != "" && s.selectedLanguage != "" &&
    s.selectedLanguage != "en" && s.lastTranslatedLangRef != s.selectedLanguage

/-- Whether entering the translate branch issues an HTTP request: inside
`handleTranslate` the sentinel check short-circuits, and inside the hook a
whitespace-only text short-circuits, before `fetch` is reached. -/
def issuesNetworkCall (s : NarrState) : Bool :=
  effectGuard s && !sentinelText s.originalGeneratedText &&
    jsTrim s.originalGeneratedText != ""

/-- One synchronous run of the auto-translate `useEffect` (page.tsx lines
87-112) up to its first suspension point, returning the new state and the
number of network requests issued: the translate branch immediately sets
`lastTranslatedLangRef` to the selected language, resets the note ref, and
records an in-flight request for that language; the English branch restores
the original text with no request. -/
def runAutoTranslateEffect (s : NarrState) : NarrState × Nat :=
  if effectGuard s then
    ({ s with lastTranslatedLangRef := s.selectedLanguage
              hasShownTranslationNoteRef := false
              pending := s.pending ++ [s.selectedLanguage] },
     if issuesNetworkCall s then 1 else 0)
  else if s.selectedLanguage == "en" && s.originalGeneratedText != "" then
    ({ s with generatedText := s.originalGeneratedText
              lastTranslatedLangRef := "en"
              hasShownTranslationNoteRef := false }, 0)
  else (s, 0)

/-- The user picks language `l`: `setSelectedLanguage(l)` followed by the
re-run of the effect (the new value is in the effect's dependency array). -/
def selectLanguage (l : String) (s : NarrState) : NarrState × Nat :=
  runAutoTranslateEffect { s with selectedLanguage := l }

/-- Value `handleTranslate` resolves with, given the string `hookResult`
that the hook's `translate` resolved with for this request: early return for
empty/English/sentinel input, and the service-unavailable note when the hook
handed back the unchanged or empty text. -/
def handleTranslateResult (hookResult : String) (text targetLang : String) : String :=
  if text = "" ∨ targetLang = "" ∨ targetLang = "en" then text
  else if sentinelText text then text
  else if hookResult = text ∨ hookResult = "" then
    text ++ serviceUnavailableNote (supportedLangName targetLang)
  else hookResult

/-- The continuation of `translateContent` runs for the in-flight request of
language `l` (page.tsx lines 97-102): the resolved value is written to
`generatedText` unconditionally — the code compares nothing against the
current `selectedLanguage` — and the note ref is set when the resolved text
contains the diagnostic note.  `oracle l` is the string the hook resolved
with for language `l`. -/
def resolvePending (oracle : String → String) (l : String) (s : NarrState) : NarrState :=
  if l ∈ s.pending then
    let translated := handleTranslateResult (oracle l) s.originalGeneratedText l
    { s with generatedText := translated
             hasShownTranslationNoteRef :=
               if strContains translated "[Note: Translation service" then true
               else s.hasShownTranslationNoteRef
             pending := s.pending.erase l }
  else s

end RegionalNarrative

/-! ## Crisis alert poller (page.tsx lines 749-775) and alerts proxy route
(src/app/api/alerts/route.ts lines 6-23) -/

/-- Payload of a JSON body observed by the poller or forwarded by the
proxy: `alerts` is `some l` when `data.alerts` is an array, `none`
otherwise. -/
structure AlertsBody (α : Type) where
  alerts : Option (List α)
deriving DecidableEq, Repr

/-- Outcome of one `fetch('/api/alerts')` (or of the proxy's upstream
fetch): rejected promise, or a response with `ok` flag and an optional
JSON body (`none` makes `res.json()` reject). -/
inductive PollOutcome (α : Type) where
  | netError
  | response (ok : Bool) (body : Option (AlertsBody α))
deriving DecidableEq, Repr

/-- Response of the alerts proxy `GET`: HTTP status, the `alerts` field and
the `error` field of the JSON payload. -/
structure AlertsRouteResponse (α : Type) where
  status : Nat
  alerts : Option (List α)
  error : Option String
deriving DecidableEq, Repr

namespace AlertsRoute

/-- Handler `GET` of the alerts proxy: on an upstream non-ok status returns
502 with an empty list; on a thrown fetch or JSON parse failure the catch
returns 500 with an empty list; otherwise forwards the upstream payload
with status 200. -/
def GET {α : Type} (upstream : PollOutcome α) : AlertsRouteResponse α :=
  match upstream with
  | .netError => { status := 500, alerts := some [], error := some "Internal error" }
  | .response ok body =>
    if !ok then { status := 502, alerts := some [], error := some "Bad gateway" }
    else
      match body with
      | none => { status := 500, alerts := some [], error := some "Internal error" }
      | some d => { status := 200, alerts := d.alerts, error := none }

end AlertsRoute

namespace CrisisPoller

/-- Body of the poller's `try` block: `.error` marks a thrown exception
(non-ok status or rejected fetch/json), `.ok` the alert list the UI holds
afterwards. -/
def fetchAlertsTry {α : Type} (mounted : Bool) (outcome : PollOutcome α)
    (prev : List α) : Except String (List α) :=
  match outcome with
  | .netError => .error "Failed to fetch alerts"
  | .response ok body =>
    if !ok then .error "Failed to fetch alerts"
    else
      match body with
      | none => .error "json parse error"
      | some b =>
        match b.alerts with
        | some l => if mounted && decide (0 < l.length) then .ok l else .ok prev
        | none => .ok prev

/-- Function `fetchAlerts` of the crisis-alert poller: the catch block logs and
leaves the alert list unchanged, so the function is total and never lets an
exception escape into the UI tree. -/
def fetchAlerts {α : Type} (mounted : Bool) (outcome : PollOutcome α)
    (prev : List α) : List α :=
  match fetchAlertsTry mounted outcome prev with
  | .ok l => l
  | .error _ => prev

end CrisisPoller

/-! ## Theorems -/

/-- Helper: when the missing-fields check passes, the languages differ, the
Google attempt completed with `null` (a soft failure, not a thrown fetch)
and the MyMemory fallback either was not eligible or failed, the route
returns the terminal degraded response. -/
lemma post_degraded_of_failures (genv : GoogleEnv) (menv : MyMemoryEnv)
    (eg ef : Nat) (text src tgt : String) (gsent : Option String)
    (htext : text ≠ "") (hsrc : src ≠ "") (htgt : tgt ≠ "") (hne : src ≠ tgt)
    (hg : translateWithGoogleAPI genv text src tgt = .completed ⟨gsent, none⟩)
    (hm : src = "en" → (LANGUAGE_NAMES tgt).isSome →
      (translateWithMyMemory menv text src tgt).result = none) :
    ∃ b : Bool, TranslateRoute.POST genv menv eg ef text src tgt = degradedResult text tgt b := by
  by_cases hen : src = "en" ∧ (LANGUAGE_NAMES tgt).isSome
  · obtain ⟨h1, h2⟩ := hen
    subst h1
    exact ⟨true, by simp [TranslateRoute.POST, htext, hsrc, htgt, hne, hg, h2, hm rfl h2]⟩
  · exact ⟨false, by simp [TranslateRoute.POST, htext, hsrc, htgt, hne, hg, hen]⟩

/-- C3 counterexample: with the API key configured and both providers down
in the claim's own sense — the Google fetch rejects (unreachable provider or
the 8-second timeout) and MyMemory fails — the endpoint does not return the
degraded result the claim describes: since `translateWithGoogleAPI` has no
try/catch, the exception lands in the handler's catch, which returns HTTP
500 with the original text replaced by "Translation service error. Please
try again.", no `isFallback`, no `source="none"`, no note, and MyMemory is
never attempted. -/
theorem claim_C3_counterexample :
    (TranslateRoute.POST ⟨true, fun _ => .thrown⟩ ⟨fun _ => .fail⟩ 0 0
        "Hello world" "en" "hi").status = 500 ∧
    (TranslateRoute.POST ⟨true, fun _ => .thrown⟩ ⟨fun _ => .fail⟩ 0 0
        "Hello world" "en" "hi").translatedText =
      some "Translation service error. Please try again." ∧
    (TranslateRoute.POST ⟨true, fun _ => .thrown⟩ ⟨fun _ => .fail⟩ 0 0
        "Hello world" "en" "hi").translatedText ≠ some "Hello world" ∧
    (TranslateRoute.POST ⟨true, fun _ => .thrown⟩ ⟨fun _ => .fail⟩ 0 0
        "Hello world" "en" "hi").isFallback = false ∧
    (TranslateRoute.POST ⟨true, fun _ => .thrown⟩ ⟨fun _ => .fail⟩ 0 0
        "Hello world" "en" "hi").source ≠ some "none" ∧
    (TranslateRoute.POST ⟨true, fun _ => .thrown⟩ ⟨fun _ => .fail⟩ 0 0
        "Hello world" "en" "hi").note = none ∧
    (TranslateRoute.POST ⟨true, fun _ => .thrown⟩ ⟨fun _ => .fail⟩ 0 0
        "Hello world" "en" "hi").myMemoryInvoked = false := by decide

/-- C3 amended: when the primary provider fails softly — completing with
`null` (missing API key, unmapped language code, non-ok status, error
payload, or empty translation) rather than throwing, a thrown primary fetch
instead yielding the handler's 500 catch response — and the secondary
provider fails or its English-pivot precondition is not met, the translate
endpoint returns the original text with `isFallback=true`, `source="none"`
and a single diagnostic note naming the target language; retrying the
endpoint on the returned text yields the identical single-note response,
never a second note. -/
theorem claim_C3_degraded_single_note (genv : GoogleEnv) (menv : MyMemoryEnv)
    (eg ef : Nat) (text src tgt : String) (gsent : Option String)
    (htext : text ≠ "") (hsrc : src ≠ "") (htgt : tgt ≠ "") (hne : src ≠ tgt)
    (hg : translateWithGoogleAPI genv text src tgt = .completed ⟨gsent, none⟩)
    (hm : src = "en" → (LANGUAGE_NAMES tgt).isSome →
      (translateWithMyMemory menv text src tgt).result = none) :
    (TranslateRoute.POST genv menv eg ef text src tgt).translatedText = some text ∧
    (TranslateRoute.POST genv menv eg ef text src tgt).isFallback = true ∧
    (TranslateRoute.POST genv menv eg ef text src tgt).source = some "none" ∧
    (TranslateRoute.POST genv menv eg ef text src tgt).note =
      some ("Translation unavailable for " ++ langNameFor tgt ++ ". Returned original text.") ∧
    TranslateRoute.POST genv menv eg ef
        (((TranslateRoute.POST genv menv eg ef text src tgt).translatedText).getD "") src tgt =
      TranslateRoute.POST genv menv eg ef text src tgt := by
  obtain ⟨b, hb⟩ := post_degraded_of_failures genv menv eg ef text src tgt gsent
    htext hsrc htgt hne hg hm
  have ht : ((TranslateRoute.POST genv menv eg ef text src tgt).translatedText).getD "" = text := by
    rw [hb]; rfl
  rw [ht, hb]
  exact ⟨rfl, rfl, rfl, rfl, rfl⟩

/-- C3 witness: both providers failing softly for text "Hello world", en to
hi (the primary returns null for want of an API key). -/
theorem claim_C3_witness :
    (TranslateRoute.POST ⟨false, fun _ => .fail⟩ ⟨fun _ => .fail⟩ 0 0
        "Hello world" "en" "hi").translatedText = some "Hello world" ∧
    (TranslateRoute.POST ⟨false, fun _ => .fail⟩ ⟨fun _ => .fail⟩ 0 0
        "Hello world" "en" "hi").isFallback = true ∧
    (TranslateRoute.POST ⟨false, fun _ => .fail⟩ ⟨fun _ => .fail⟩ 0 0
        "Hello world" "en" "hi").source = some "none" ∧
    (TranslateRoute.POST ⟨false, fun _ => .fail⟩ ⟨fun _ => .fail⟩ 0 0
        "Hello world" "en" "hi").note =
      some ("Translation unavailable for " ++ langNameFor "hi" ++ ". Returned original text.") ∧
    TranslateRoute.POST ⟨false, fun _ => .fail⟩ ⟨fun _ => .fail⟩ 0 0
        (((TranslateRoute.POST ⟨false, fun _ => .fail⟩ ⟨fun _ => .fail⟩ 0 0
          "Hello world" "en" "hi").translatedText).getD "") "en" "hi" =
      TranslateRoute.POST ⟨false, fun _ => .fail⟩ ⟨fun _ => .fail⟩ 0 0 "Hello world" "en" "hi" :=
  claim_C3_degraded_single_note ⟨false, fun _ => .fail⟩ ⟨fun _ => .fail⟩ 0 0
    "Hello world" "en" "hi" none (by decide) (by decide) (by decide) (by decide)
    (by decide) (fun _ _ => by decide)

/-- C4 counterexample: with empty text and equal language codes the route
returns the 400 missing-fields error, not the noop result, because the
missing-fields check runs before the same-language check. -/
theorem claim_C4_counterexample :
    (TranslateRoute.POST ⟨false, fun _ => .fail⟩ ⟨fun _ => .fail⟩ 0 0 "" "hi" "hi").status = 400 ∧
    (TranslateRoute.POST ⟨false, fun _ => .fail⟩ ⟨fun _ => .fail⟩ 0 0 "" "hi" "hi").source ≠
      some "noop" ∧
    (TranslateRoute.POST ⟨false, fun _ => .fail⟩ ⟨fun _ => .fail⟩ 0 0 "" "hi" "hi").translatedText ≠
      some "" := by decide

/-- C4 amended: for every request that passes the missing-fields check
(text and language codes non-empty) with equal source and target language,
the endpoint returns immediately with the text unchanged, `source="noop"`,
`timeMs=0`, without invoking either provider. -/
theorem claim_C4_noop_amended (genv : GoogleEnv) (menv : MyMemoryEnv)
    (eg ef : Nat) (text sourceLang targetLang : String)
    (htext : text ≠ "") (hsrc : sourceLang ≠ "") (heq : sourceLang = targetLang) :
    TranslateRoute.POST genv menv eg ef text sourceLang targetLang =
      { status := 200, translatedText := some text, timeMs := some 0
        source := some "noop", isFallback := false, note := none, error := none
        googleInvoked := false, myMemoryInvoked := false } := by
  subst heq
  simp [TranslateRoute.POST, htext, hsrc]

/-- C4 witness: the amended noop short-circuit at "Hello world", hi to hi. -/
theorem claim_C4_witness :
    TranslateRoute.POST ⟨false, fun _ => .fail⟩ ⟨fun _ => .fail⟩ 0 0 "Hello world" "hi" "hi" =
      { status := 200, translatedText := some "Hello world", timeMs := some 0
        source := some "noop", isFallback := false, note := none, error := none
        googleInvoked := false, myMemoryInvoked := false } :=
  claim_C4_noop_amended ⟨false, fun _ => .fail⟩ ⟨fun _ => .fail⟩ 0 0
    "Hello world" "hi" "hi" (by decide) (by decide) rfl

/-- Whether the Google attempt completed with `null` — a soft failure, as
opposed to a thrown fetch or a successful translation. -/
def GoogleAttempt.softFailed : GoogleAttempt → Bool
  | .thrown => false
  | .completed c => c.result.isNone

/-- C8 counterexample: the primary provider failing by a rejected fetch
(provider down, timeout) with the pivot precondition unmet (source hi,
target en): instead of proceeding to the terminal degraded response, the
chain lands in the handler's catch and returns the 500 error with
replacement text; MyMemory is never attempted either way, but the asserted
degraded response never happens. -/
theorem claim_C8_counterexample :
    TranslateRoute.POST ⟨true, fun _ => .thrown⟩ ⟨fun _ => .fail⟩ 0 0
        "Hello world" "hi" "en" = serverErrorResult ∧
    (TranslateRoute.POST ⟨true, fun _ => .thrown⟩ ⟨fun _ => .fail⟩ 0 0
        "Hello world" "hi" "en").status = 500 ∧
    TranslateRoute.POST ⟨true, fun _ => .thrown⟩ ⟨fun _ => .fail⟩ 0 0
        "Hello world" "hi" "en" ≠ degradedResult "Hello world" "en" false ∧
    TranslateRoute.POST ⟨true, fun _ => .thrown⟩ ⟨fun _ => .fail⟩ 0 0
        "Hello world" "hi" "en" ≠ degradedResult "Hello world" "en" true ∧
    (TranslateRoute.POST ⟨true, fun _ => .thrown⟩ ⟨fun _ => .fail⟩ 0 0
        "Hello world" "hi" "en").myMemoryInvoked = false := by decide

/-- C8 amended: for a valid non-noop request, the MyMemory fallback is
invoked exactly when the Google attempt failed softly (completed with
`null`), the source language is the English pivot and the target language
is a key of the supported set `LANGUAGE_NAMES`; when Google failed softly
and that precondition does not hold, the chain proceeds directly to the
terminal degraded response without invoking MyMemory; when the Google
attempt throws instead, the handler's catch returns the 500 error response
and MyMemory is never attempted. -/
theorem claim_C8_fallback_precondition (genv : GoogleEnv) (menv : MyMemoryEnv)
    (eg ef : Nat) (text src tgt : String)
    (htext : text ≠ "") (hsrc : src ≠ "") (htgt : tgt ≠ "") (hne : src ≠ tgt) :
    ((TranslateRoute.POST genv menv eg ef text src tgt).myMemoryInvoked = true ↔
      ((translateWithGoogleAPI genv text src tgt).softFailed = true ∧
        (src = "en" ∧ (LANGUAGE_NAMES tgt).isSome))) ∧
    ((translateWithGoogleAPI genv text src tgt).softFailed = true →
      ¬(src = "en" ∧ (LANGUAGE_NAMES tgt).isSome) →
      TranslateRoute.POST genv menv eg ef text src tgt = degradedResult text tgt false) ∧
    (translateWithGoogleAPI genv text src tgt = .thrown →
      TranslateRoute.POST genv menv eg ef text src tgt = serverErrorResult) := by
  cases hg : translateWithGoogleAPI genv text src tgt with
  | thrown =>
    refine ⟨?_, ?_, fun _ => ?_⟩
    · simp [TranslateRoute.POST, htext, hsrc, htgt, hne, hg, GoogleAttempt.softFailed,
        serverErrorResult]
    · intro hsf
      simp [GoogleAttempt.softFailed] at hsf
    · simp [TranslateRoute.POST, htext, hsrc, htgt, hne, hg]
  | completed gcall =>
    cases hres : gcall.result with
    | some t =>
      refine ⟨?_, ?_, ?_⟩
      · simp [TranslateRoute.POST, htext, hsrc, htgt, hne, hg, hres,
          GoogleAttempt.softFailed]
      · intro hsf
        simp [GoogleAttempt.softFailed, hres] at hsf
      · intro hth
        exact absurd hth (by simp)
    | none =>
      by_cases hen : src = "en" ∧ (LANGUAGE_NAMES tgt).isSome
      · obtain ⟨h1, h2⟩ := hen
        subst h1
        refine ⟨?_, fun _ hen2 => absurd ⟨rfl, h2⟩ hen2, ?_⟩
        · cases hmm : (translateWithMyMemory menv text "en" tgt).result with
          | some t =>
            simp [TranslateRoute.POST, htext, htgt, hne, hg, hres, hmm,
              GoogleAttempt.softFailed, h2]
          | none =>
            simp [TranslateRoute.POST, htext, htgt, hne, hg, hres, hmm,
              GoogleAttempt.softFailed, h2, degradedResult]
        · intro hth
          exact absurd hth (by simp)
      · refine ⟨?_, fun _ _ => ?_, ?_⟩
        · simp [TranslateRoute.POST, htext, hsrc, htgt, hne, hg, hres, hen,
            GoogleAttempt.softFailed, degradedResult]
        · simp [TranslateRoute.POST, htext, hsrc, htgt, hne, hg, hres, hen]
        · intro hth
          exact absurd hth (by simp)

/-- C8 witness: Google failing softly for want of an API key, source hi,
target en (the pivot precondition fails because the source is not English):
the route goes straight to the degraded response and MyMemory is never
invoked. -/
theorem claim_C8_witness :
    ((TranslateRoute.POST ⟨false, fun _ => .fail⟩ ⟨fun _ => .success "X"⟩ 0 0
        "Hello world" "hi" "en").myMemoryInvoked = true ↔
      ((translateWithGoogleAPI ⟨false, fun _ => .fail⟩ "Hello world" "hi" "en").softFailed = true ∧
        ("hi" = "en" ∧ (LANGUAGE_NAMES "en").isSome))) ∧
    ((translateWithGoogleAPI ⟨false, fun _ => .fail⟩ "Hello world" "hi" "en").softFailed = true →
      ¬("hi" = "en" ∧ (LANGUAGE_NAMES "en").isSome) →
      TranslateRoute.POST ⟨false, fun _ => .fail⟩ ⟨fun _ => .success "X"⟩ 0 0
          "Hello world" "hi" "en" = degradedResult "Hello world" "en" false) ∧
    (translateWithGoogleAPI ⟨false, fun _ => .fail⟩ "Hello world" "hi" "en" = .thrown →
      TranslateRoute.POST ⟨false, fun _ => .fail⟩ ⟨fun _ => .success "X"⟩ 0 0
          "Hello world" "hi" "en" = serverErrorResult) :=
  claim_C8_fallback_precondition ⟨false, fun _ => .fail⟩ ⟨fun _ => .success "X"⟩ 0 0
    "Hello world" "hi" "en" (by decide) (by decide) (by decide) (by decide)

/-- C6: for input longer than the 4500-character Google limit only the
4500-character slice is sent and the successful result carries the note
quoting that limit; likewise for the 500-character MyMemory limit — each
provider translates only the truncated slice of the input. -/
theorem claim_C6_truncation (genv : GoogleEnv) (menv : MyMemoryEnv)
    (gtext src tgt mtext mres : String) (entries : List String)
    (hkey : genv.hasApiKey = true)
    (hgs : (GOOGLE_LANGUAGE_CODES src).isSome)
    (hgt : (GOOGLE_LANGUAGE_CODES tgt).isSome)
    (hglen : jsLength gtext > 4500)
    (hg : genv.respond (jsSlice gtext 4500) = .success entries)
    (hents : entries ≠ [])
    (htrim : jsTrim (jsJoin " " entries) ≠ "")
    (hmlen : jsLength mtext > 500)
    (hm : menv.respond (jsSlice mtext 500) = .success mres)
    (hmres : mres ≠ "") :
    translateWithGoogleAPI genv gtext src tgt =
      .completed ⟨some (jsSlice gtext 4500),
        some (jsTrim (jsJoin " " entries) ++ googleTruncNote)⟩ ∧
    strContains googleTruncNote "4,500" = true ∧
    (translateWithMyMemory menv mtext src tgt).sent = some (jsSlice mtext 500) ∧
    (translateWithMyMemory menv mtext src tgt).result = some (mres ++ myMemoryTruncNote) ∧
    strContains myMemoryTruncNote "500" = true := by
  obtain ⟨cs, hcs⟩ := Option.isSome_iff_exists.mp hgs
  obtain ⟨ct, hct⟩ := Option.isSome_iff_exists.mp hgt
  cases entries with
  | nil => exact absurd rfl hents
  | cons e es =>
    refine ⟨?_, by decide, ?_, ?_, by decide⟩ <;>
      simp [translateWithGoogleAPI, translateWithMyMemory, hkey, hcs, hct,
        hglen, hg, htrim, hmlen, hm, hmres]

/-- C6 witness inputs: a 4501-character text for Google and a 501-character
text for MyMemory, both providers succeeding. -/
def c6GTextW : String := String.mk (List.replicate 4501 'a')

/-- C6 witness input for the MyMemory limit. -/
def c6MTextW : String := String.mk (List.replicate 501 'b')

/-- C6 witness Google environment: key configured, constant success. -/
def c6GoogleEnvW : GoogleEnv := ⟨true, fun _ => .success ["X"]⟩

/-- C6 witness MyMemory environment: constant success. -/
def c6MyMemoryEnvW : MyMemoryEnv := ⟨fun _ => .success "Y"⟩

/-- C6 witness: both truncation paths at concrete over-limit inputs. -/
theorem claim_C6_witness :
    translateWithGoogleAPI c6GoogleEnvW c6GTextW "en" "hi" =
      .completed ⟨some (jsSlice c6GTextW 4500),
        some (jsTrim (jsJoin " " ["X"]) ++ googleTruncNote)⟩ ∧
    strContains googleTruncNote "4,500" = true ∧
    (translateWithMyMemory c6MyMemoryEnvW c6MTextW "en" "hi").sent =
      some (jsSlice c6MTextW 500) ∧
    (translateWithMyMemory c6MyMemoryEnvW c6MTextW "en" "hi").result =
      some ("Y" ++ myMemoryTruncNote) ∧
    strContains myMemoryTruncNote "500" = true :=
  claim_C6_truncation c6GoogleEnvW c6MyMemoryEnvW c6GTextW "en" "hi" c6MTextW "Y" ["X"]
    rfl (by decide) (by decide)
    (by
      have h : jsLength c6GTextW = 4501 := by
        show (String.mk (List.replicate 4501 'a')).data.length = 4501
        rw [show (String.mk (List.replicate 4501 'a')).data = List.replicate 4501 'a' from rfl,
          List.length_replicate]
      omega)
    rfl (by decide) (by decide)
    (by
      have h : jsLength c6MTextW = 501 := by
        show (String.mk (List.replicate 501 'b')).data.length = 501
        rw [show (String.mk (List.replicate 501 'b')).data = List.replicate 501 'b' from rfl,
          List.length_replicate]
      omega)
    rfl (by decide)

/-- C7 counterexample: for the whitespace-only input " " under a network
failure, the hook resolves with the empty string — not the original input
" " — makes no request, and leaves the error flag unset, because the
whitespace early-return precedes the try/catch. -/
theorem claim_C7_counterexample :
    (UseTranslation.translate .netError ⟨false, none⟩ " " "en" "hi").result = "" ∧
    (" " : String) ≠ "" ∧
    (UseTranslation.translate .netError ⟨false, none⟩ " " "en" "hi").finalState.error = none ∧
    (UseTranslation.translate .netError ⟨false, none⟩ " " "en" "hi").fetched = false := by
  decide

/-- C7 amended: for every input whose text is not empty or whitespace-only,
on every transport failure (network failure, non-2xx status, non-JSON body)
the hook's `translate` resolves with the original input text and sets the
error flag; and for every outcome whatsoever the busy flag is false on
completion.  The function is total, so it never rejects to its caller. -/
theorem claim_C7_transport_amended (text srcL tgtL : String) (prev : HookState)
    (o : FetchOutcome) (hws : jsTrim text ≠ "") :
    (UseTranslation.isTransportFailure o = true →
      (UseTranslation.translate o prev text srcL tgtL).result = text ∧
      (UseTranslation.translate o prev text srcL tgtL).finalState.error =
        some "Failed to translate text") ∧
    (UseTranslation.translate o prev text srcL tgtL).finalState.isTranslating = false := by
  cases o with
  | netError => simp [UseTranslation.translate, UseTranslation.isTransportFailure, hws]
  | response ok body =>
    cases ok with
    | false =>
      cases body <;>
        simp [UseTranslation.translate, UseTranslation.isTransportFailure, hws]
    | true =>
      cases body with
      | none => simp [UseTranslation.translate, UseTranslation.isTransportFailure, hws]
      | some d =>
        refine ⟨by simp [UseTranslation.isTransportFailure], ?_⟩
        by_cases hfb : d.isFallback ∧ d.source = some "none"
        · simp [UseTranslation.translate, hws, hfb]
        · cases ht : d.translatedText with
          | none => simp [UseTranslation.translate, hws, hfb, ht]
          | some s =>
            by_cases hs : s = "" <;>
              simp [UseTranslation.translate, hws, hfb, ht, hs]

/-- C7 witness: the amended theorem at text "Hello", a rejected fetch. -/
theorem claim_C7_witness :
    (UseTranslation.isTransportFailure .netError = true →
      (UseTranslation.translate .netError ⟨false, none⟩ "Hello" "en" "hi").result = "Hello" ∧
      (UseTranslation.translate .netError ⟨false, none⟩ "Hello" "en" "hi").finalState.error =
        some "Failed to translate text") ∧
    (UseTranslation.translate .netError ⟨false, none⟩ "Hello" "en" "hi").finalState.isTranslating =
      false :=
  claim_C7_transport_amended "Hello" "en" "hi" ⟨false, none⟩ .netError (by decide)

/-- C10: the route's degraded "no provider available" response carries
status 503, which the Fetch API marks not-ok; the hook therefore throws
before inspecting the body, resolves with the original input text, sets the
error flag and never reaches its in-body `isFallback`/`source="none"`
check; that check is reachable only when the response status was 2xx. -/
theorem claim_C10_degraded_takes_error_path (genv : GoogleEnv) (menv : MyMemoryEnv)
    (eg ef : Nat) (text src tgt : String) (gsent : Option String) (prev : HookState)
    (htext : text ≠ "") (hsrc : src ≠ "") (htgt : tgt ≠ "") (hne : src ≠ tgt)
    (hws : jsTrim text ≠ "")
    (hg : translateWithGoogleAPI genv text src tgt = .completed ⟨gsent, none⟩)
    (hm : src = "en" → (LANGUAGE_NAMES tgt).isSome →
      (translateWithMyMemory menv text src tgt).result = none) :
    (TranslateRoute.POST genv menv eg ef text src tgt).status = 503 ∧
    okOfStatus (TranslateRoute.POST genv menv eg ef text src tgt).status = false ∧
    (UseTranslation.translate
        (.response (okOfStatus (TranslateRoute.POST genv menv eg ef text src tgt).status)
          (some ⟨(TranslateRoute.POST genv menv eg ef text src tgt).isFallback,
                 (TranslateRoute.POST genv menv eg ef text src tgt).source,
                 (TranslateRoute.POST genv menv eg ef text src tgt).translatedText⟩))
        prev text src tgt).result = text ∧
    (UseTranslation.translate
        (.response (okOfStatus (TranslateRoute.POST genv menv eg ef text src tgt).status)
          (some ⟨(TranslateRoute.POST genv menv eg ef text src tgt).isFallback,
                 (TranslateRoute.POST genv menv eg ef text src tgt).source,
                 (TranslateRoute.POST genv menv eg ef text src tgt).translatedText⟩))
        prev text src tgt).finalState.error = some "Failed to translate text" ∧
    (UseTranslation.translate
        (.response (okOfStatus (TranslateRoute.POST genv menv eg ef text src tgt).status)
          (some ⟨(TranslateRoute.POST genv menv eg ef text src tgt).isFallback,
                 (TranslateRoute.POST genv menv eg ef text src tgt).source,
                 (TranslateRoute.POST genv menv eg ef text src tgt).translatedText⟩))
        prev text src tgt).inspectedBody = false ∧
    (∀ (ok : Bool) (body : Option RespBody) (p : HookState) (t s2 g2 : String),
      (UseTranslation.translate (.response ok body) p t s2 g2).inspectedBody = true →
      ok = true) := by
  obtain ⟨b, hb⟩ := post_degraded_of_failures genv menv eg ef text src tgt gsent
    htext hsrc htgt hne hg hm
  rw [hb]
  refine ⟨rfl, rfl, ?_, ?_, ?_, ?_⟩
  · simp [UseTranslation.translate, hws, degradedResult, okOfStatus]
  · simp [UseTranslation.translate, hws, degradedResult, okOfStatus]
  · simp [UseTranslation.translate, hws, degradedResult, okOfStatus]
  · intro ok body p t s2 g2 h
    cases ok with
    | true => rfl
    | false =>
      exfalso
      by_cases hw : jsTrim t = "" <;>
        cases body <;>
          simp [UseTranslation.translate, hw] at h

/-- C10 witness: both providers down for "Hello world", en to hi; the
degraded 503 response drives the hook into its error path. -/
theorem claim_C10_witness :
    (TranslateRoute.POST ⟨false, fun _ => .fail⟩ ⟨fun _ => .fail⟩ 0 0
        "Hello world" "en" "hi").status = 503 ∧
    okOfStatus (TranslateRoute.POST ⟨false, fun _ => .fail⟩ ⟨fun _ => .fail⟩ 0 0
        "Hello world" "en" "hi").status = false ∧
    (UseTranslation.translate
        (.response (okOfStatus (TranslateRoute.POST ⟨false, fun _ => .fail⟩ ⟨fun _ => .fail⟩ 0 0
            "Hello world" "en" "hi").status)
          (some ⟨(TranslateRoute.POST ⟨false, fun _ => .fail⟩ ⟨fun _ => .fail⟩ 0 0
                    "Hello world" "en" "hi").isFallback,
                 (TranslateRoute.POST ⟨false, fun _ => .fail⟩ ⟨fun _ => .fail⟩ 0 0
                    "Hello world" "en" "hi").source,
                 (TranslateRoute.POST ⟨false, fun _ => .fail⟩ ⟨fun _ => .fail⟩ 0 0
                    "Hello world" "en" "hi").translatedText⟩))
        ⟨false, none⟩ "Hello world" "en" "hi").result = "Hello world" ∧
    (UseTranslation.translate
        (.response (okOfStatus (TranslateRoute.POST ⟨false, fun _ => .fail⟩ ⟨fun _ => .fail⟩ 0 0
            "Hello world" "en" "hi").status)
          (some ⟨(TranslateRoute.POST ⟨false, fun _ => .fail⟩ ⟨fun _ => .fail⟩ 0 0
                    "Hello world" "en" "hi").isFallback,
                 (TranslateRoute.POST ⟨false, fun _ => .fail⟩ ⟨fun _ => .fail⟩ 0 0
                    "Hello world" "en" "hi").source,
                 (TranslateRoute.POST ⟨false, fun _ => .fail⟩ ⟨fun _ => .fail⟩ 0 0
                    "Hello world" "en" "hi").translatedText⟩))
        ⟨false, none⟩ "Hello world" "en" "hi").finalState.error =
      some "Failed to translate text" ∧
    (UseTranslation.translate
        (.response (okOfStatus (TranslateRoute.POST ⟨false, fun _ => .fail⟩ ⟨fun _ => .fail⟩ 0 0
            "Hello world" "en" "hi").status)
          (some ⟨(TranslateRoute.POST ⟨false, fun _ => .fail⟩ ⟨fun _ => .fail⟩ 0 0
                    "Hello world" "en" "hi").isFallback,
                 (TranslateRoute.POST ⟨false, fun _ => .fail⟩ ⟨fun _ => .fail⟩ 0 0
                    "Hello world" "en" "hi").source,
                 (TranslateRoute.POST ⟨false, fun _ => .fail⟩ ⟨fun _ => .fail⟩ 0 0
                    "Hello world" "en" "hi").translatedText⟩))
        ⟨false, none⟩ "Hello world" "en" "hi").inspectedBody = false ∧
    (∀ (ok : Bool) (body : Option RespBody) (p : HookState) (t s2 g2 : String),
      (UseTranslation.translate (.response ok body) p t s2 g2).inspectedBody = true →
      ok = true) :=
  claim_C10_degraded_takes_error_path ⟨false, fun _ => .fail⟩ ⟨fun _ => .fail⟩ 0 0
    "Hello world" "en" "hi" none ⟨false, none⟩ (by decide) (by decide) (by decide) (by decide)
    (by decide) (by decide) (fun _ _ => by decide)

/-- Oracle for the C1 race trace: the hook resolves the request for Hindi
with "HI-TEXT" and the request for Tamil with "TA-TEXT". -/
def raceOracle : String → String :=
  fun l => if l = "hi" then "HI-TEXT" else if l = "ta" then "TA-TEXT" else ""

/-- C1 race trace, initial state: English narrative generated, no language
selected yet. -/
def raceS0 : NarrState :=
  { originalGeneratedText := "Hello world", generatedText := "Hello world"
    selectedLanguage := "", lastTranslatedLangRef := ""
    hasShownTranslationNoteRef := false, pending := [] }

/-- C1 race trace after the user selects Hindi (request A issued). -/
def raceS1 : NarrState := (RegionalNarrative.selectLanguage "hi" raceS0).1

/-- C1 race trace after the user selects Tamil before A resolves
(request B issued). -/
def raceS2 : NarrState := (RegionalNarrative.selectLanguage "ta" raceS1).1

/-- C1 race trace after B's response arrives first. -/
def raceS3 : NarrState := RegionalNarrative.resolvePending raceOracle "ta" raceS2

/-- C1 race trace after A's response arrives last. -/
def raceS4 : NarrState := RegionalNarrative.resolvePending raceOracle "hi" raceS3

/-- C1, evaluated at the failing interleaving: requests for Hindi (A) then
Tamil (B) are both in flight, B's response lands first and correctly
displays "TA-TEXT", then A's stale response lands and overwrites the
display with "HI-TEXT" although the selected language is still Tamil — the
code applies results in completion order, so the stale resolution for the
abandoned language is applied, not discarded, and the final displayed text
corresponds to A, contradicting the claimed last-write-wins property. -/
theorem claim_C1_race_stale_overwrite :
    raceS2.pending = ["hi", "ta"] ∧
    raceS2.selectedLanguage = "ta" ∧
    raceS3.generatedText = "TA-TEXT" ∧
    raceS4.selectedLanguage = "ta" ∧
    raceS4.generatedText = "HI-TEXT" ∧
    raceS4.generatedText =
      RegionalNarrative.handleTranslateResult (raceOracle "hi") "Hello world" "hi" ∧
    raceS4.generatedText ≠
      RegionalNarrative.handleTranslateResult (raceOracle "ta") "Hello world" "ta" := by
  decide

/-- C5: switching the controller back to the pivot language "en" while an
original generated text exists sets the displayed text exactly to the
original English text and the last-translated ref to "en", and issues no
network call. -/
theorem claim_C5_pivot_restore (s : NarrState) (h : s.originalGeneratedText ≠ "") :
    (RegionalNarrative.selectLanguage "en" s).1.generatedText = s.originalGeneratedText ∧
    (RegionalNarrative.selectLanguage "en" s).1.lastTranslatedLangRef = "en" ∧
    (RegionalNarrative.selectLanguage "en" s).2 = 0 := by
  simp [RegionalNarrative.selectLanguage, RegionalNarrative.runAutoTranslateEffect,
    RegionalNarrative.effectGuard, h]

/-- C5 witness: switching back to English from a translated Tamil state. -/
theorem claim_C5_witness :
    (RegionalNarrative.selectLanguage "en"
        { originalGeneratedText := "Hello world", generatedText := "TA-TEXT"
          selectedLanguage := "ta", lastTranslatedLangRef := "ta"
          hasShownTranslationNoteRef := false, pending := [] }).1.generatedText =
      "Hello world" ∧
    (RegionalNarrative.selectLanguage "en"
        { originalGeneratedText := "Hello world", generatedText := "TA-TEXT"
          selectedLanguage := "ta", lastTranslatedLangRef := "ta"
          hasShownTranslationNoteRef := false, pending := [] }).1.lastTranslatedLangRef = "en" ∧
    (RegionalNarrative.selectLanguage "en"
        { originalGeneratedText := "Hello world", generatedText := "TA-TEXT"
          selectedLanguage := "ta", lastTranslatedLangRef := "ta"
          hasShownTranslationNoteRef := false, pending := [] }).2 = 0 :=
  claim_C5_pivot_restore
    { originalGeneratedText := "Hello world", generatedText := "TA-TEXT"
      selectedLanguage := "ta", lastTranslatedLangRef := "ta"
      hasShownTranslationNoteRef := false, pending := [] } (by decide)

/-- Helper: propositional characterisation of one `selectLanguage` step. -/
lemma selectLanguage_spec (s : NarrState) (l : String) :
    RegionalNarrative.selectLanguage l s =
      if s.originalGeneratedText ≠ "" ∧ l ≠ "" ∧ l ≠ "en" ∧ s.lastTranslatedLangRef ≠ l then
        ({ s with selectedLanguage := l, lastTranslatedLangRef := l
                  hasShownTranslationNoteRef := false, pending := s.pending ++ [l] },
         if sentinelText s.originalGeneratedText = false ∧ jsTrim s.originalGeneratedText ≠ ""
           then 1 else 0)
      else if l = "en" ∧ s.originalGeneratedText ≠ "" then
        ({ s with selectedLanguage := l, generatedText := s.originalGeneratedText
                  lastTranslatedLangRef := "en", hasShownTranslationNoteRef := false }, 0)
      else ({ s with selectedLanguage := l }, 0) := by
  by_cases hg : s.originalGeneratedText ≠ "" ∧ l ≠ "" ∧ l ≠ "en" ∧ s.lastTranslatedLangRef ≠ l
  · obtain ⟨h1, h2, h3, h4⟩ := hg
    simp [RegionalNarrative.selectLanguage, RegionalNarrative.runAutoTranslateEffect,
      RegionalNarrative.effectGuard, RegionalNarrative.issuesNetworkCall, h1, h2, h3, h4]
  · rw [if_neg hg]
    by_cases he : l = "en" ∧ s.originalGeneratedText ≠ ""
    · rw [if_pos he]
      simp only [not_and, not_ne_iff, ne_eq] at hg
      simp [RegionalNarrative.selectLanguage, RegionalNarrative.runAutoTranslateEffect,
        RegionalNarrative.effectGuard, he.1, he.2]
    · rw [if_neg he]
      have hguard : RegionalNarrative.effectGuard { s with selectedLanguage := l } = false := by
        by_contra hb
        rw [Bool.not_eq_false] at hb
        apply hg
        simpa [RegionalNarrative.effectGuard, and_assoc] using hb
      have hen : ¬(({ s with selectedLanguage := l } : NarrState).selectedLanguage == "en" &&
          ({ s with selectedLanguage := l } : NarrState).originalGeneratedText != "") = true := by
        intro hb
        apply he
        simpa using hb
      simp [RegionalNarrative.selectLanguage, RegionalNarrative.runAutoTranslateEffect,
        hguard, hen]

/-- C2: triggering the "switch to language L" transition twice in
succession with no other state change issues at most one network call in
total, and a network call is issued only when the original generated text
is non-empty, the selected language is set and not English, and it differs
from the last-translated language — the guard that short-circuits the
second trigger. -/
theorem claim_C2_switch_idempotent :
    (∀ (s : NarrState) (l : String),
      (RegionalNarrative.selectLanguage l s).2 +
        (RegionalNarrative.selectLanguage l (RegionalNarrative.selectLanguage l s).1).2 ≤ 1) ∧
    (∀ s : NarrState, 0 < (RegionalNarrative.runAutoTranslateEffect s).2 →
      s.originalGeneratedText ≠ "" ∧ s.selectedLanguage ≠ "" ∧
        s.selectedLanguage ≠ "en" ∧ s.lastTranslatedLangRef ≠ s.selectedLanguage) := by
  constructor
  · intro s l
    by_cases hg : s.originalGeneratedText ≠ "" ∧ l ≠ "" ∧ l ≠ "en" ∧
        s.lastTranslatedLangRef ≠ l
    · obtain ⟨h1, h2, h3, h4⟩ := hg
      by_cases hc : sentinelText s.originalGeneratedText = false ∧
          jsTrim s.originalGeneratedText ≠ ""
      · simp [selectLanguage_spec, h1, h2, h3, h4, hc]
      · simp [selectLanguage_spec, h1, h2, h3, h4, hc]
    · by_cases he : l = "en" ∧ s.originalGeneratedText ≠ ""
      · obtain ⟨he1, he2⟩ := he
        subst he1
        simp [selectLanguage_spec, he2]
      · simp [selectLanguage_spec, hg, he]
  · intro s hpos
    by_cases hg : RegionalNarrative.effectGuard s = true
    · simpa [RegionalNarrative.effectGuard, and_assoc] using hg
    · exfalso
      rw [Bool.not_eq_true] at hg
      have hz : (RegionalNarrative.runAutoTranslateEffect s).2 = 0 := by
        simp only [RegionalNarrative.runAutoTranslateEffect, hg, Bool.false_eq_true, if_false]
        split <;> rfl
      omega

/-- C2 witness: a fresh English narrative, first switch to Hindi issues one
call, and the effect's call count is positive exactly under the guard. -/
theorem claim_C2_witness :
    (RegionalNarrative.selectLanguage "hi"
        { originalGeneratedText := "Hello world", generatedText := "Hello world"
          selectedLanguage := "", lastTranslatedLangRef := ""
          hasShownTranslationNoteRef := false, pending := [] }).2 +
      (RegionalNarrative.selectLanguage "hi"
        (RegionalNarrative.selectLanguage "hi"
          { originalGeneratedText := "Hello world", generatedText := "Hello world"
            selectedLanguage := "", lastTranslatedLangRef := ""
            hasShownTranslationNoteRef := false, pending := [] }).1).2 ≤ 1 ∧
    (({ originalGeneratedText := "Hello world", generatedText := "Hello world"
        selectedLanguage := "hi", lastTranslatedLangRef := ""
        hasShownTranslationNoteRef := false, pending := [] } : NarrState).originalGeneratedText ≠ "" ∧
      ("hi" : String) ≠ "" ∧ ("hi" : String) ≠ "en" ∧ ("" : String) ≠ "hi") :=
  ⟨claim_C2_switch_idempotent.1
      { originalGeneratedText := "Hello world", generatedText := "Hello world"
        selectedLanguage := "", lastTranslatedLangRef := ""
        hasShownTranslationNoteRef := false, pending := [] } "hi",
   claim_C2_switch_idempotent.2
      { originalGeneratedText := "Hello world", generatedText := "Hello world"
        selectedLanguage := "hi", lastTranslatedLangRef := ""
        hasShownTranslationNoteRef := false, pending := [] } (by decide)⟩

/-- A failing poll: rejected fetch, non-ok HTTP status, or a non-JSON
body. -/
def pollFailure {α : Type} : PollOutcome α → Bool
  | .netError => true
  | .response ok body => !ok || body.isNone

/-- C9: the poller replaces the displayed alert list wholesale exactly on a
successful fetch carrying a non-empty array while the view is mounted; on
every transport failure, on a success with `alerts` missing or empty, and
in particular on any failing upstream of the alerts proxy (whose 502/500
responses are not-ok for the fetch API), the previous list is left
unchanged — the thrown error is absorbed by the catch, never reaching the
UI tree. -/
theorem claim_C9_poller_frame (α : Type) :
    (∀ (mounted : Bool) (prev l : List α), 0 < l.length → mounted = true →
      CrisisPoller.fetchAlerts mounted (.response true (some ⟨some l⟩)) prev = l) ∧
    (∀ (mounted : Bool) (prev : List α) (o : PollOutcome α), pollFailure o = true →
      CrisisPoller.fetchAlerts mounted o prev = prev) ∧
    (∀ (mounted : Bool) (prev : List α),
      CrisisPoller.fetchAlerts mounted (.response true (some ⟨some []⟩)) prev = prev) ∧
    (∀ (mounted : Bool) (prev : List α) (b : AlertsBody α),
      CrisisPoller.fetchAlerts mounted (.response true (some b)) prev = prev ∨
        ∃ l, b.alerts = some l ∧ 0 < l.length ∧ mounted = true ∧
          CrisisPoller.fetchAlerts mounted (.response true (some b)) prev = l) ∧
    (∀ (upstream : PollOutcome α) (mounted : Bool) (prev : List α),
      pollFailure upstream = true →
      ((AlertsRoute.GET upstream).status = 502 ∨ (AlertsRoute.GET upstream).status = 500) ∧
        okOfStatus (AlertsRoute.GET upstream).status = false ∧
        CrisisPoller.fetchAlerts mounted
          (.response (okOfStatus (AlertsRoute.GET upstream).status)
            (some ⟨(AlertsRoute.GET upstream).alerts⟩)) prev = prev) := by
  refine ⟨?_, ?_, ?_, ?_, ?_⟩
  · intro mounted prev l hl hm
    subst hm
    simp [CrisisPoller.fetchAlerts, CrisisPoller.fetchAlertsTry, hl]
  · intro mounted prev o ho
    cases o with
    | netError => simp [CrisisPoller.fetchAlerts, CrisisPoller.fetchAlertsTry]
    | response ok body =>
      cases ok with
      | false => cases body <;> simp [CrisisPoller.fetchAlerts, CrisisPoller.fetchAlertsTry]
      | true =>
        cases body with
        | none => simp [CrisisPoller.fetchAlerts, CrisisPoller.fetchAlertsTry]
        | some b => simp [pollFailure] at ho
  · intro mounted prev
    simp [CrisisPoller.fetchAlerts, CrisisPoller.fetchAlertsTry]
  · intro mounted prev b
    cases hb : b.alerts with
    | none => left; simp [CrisisPoller.fetchAlerts, CrisisPoller.fetchAlertsTry, hb]
    | some l =>
      by_cases hc : mounted && decide (0 < l.length)
      · right
        rw [Bool.and_eq_true, decide_eq_true_iff] at hc
        exact ⟨l, rfl, hc.2, hc.1,
          by simp [CrisisPoller.fetchAlerts, CrisisPoller.fetchAlertsTry, hb, hc.1, hc.2]⟩
      · left
        rw [Bool.not_eq_true] at hc
        simp [CrisisPoller.fetchAlerts, CrisisPoller.fetchAlertsTry, hb, hc]
  · intro upstream mounted prev hup
    cases upstream with
    | netError =>
      exact ⟨Or.inr rfl, rfl,
        by simp [AlertsRoute.GET, CrisisPoller.fetchAlerts, CrisisPoller.fetchAlertsTry, okOfStatus]⟩
    | response ok body =>
      cases ok with
      | false =>
        exact ⟨Or.inl rfl, rfl,
          by simp [AlertsRoute.GET, CrisisPoller.fetchAlerts, CrisisPoller.fetchAlertsTry, okOfStatus]⟩
      | true =>
        cases body with
        | none =>
          exact ⟨Or.inr rfl, rfl,
            by simp [AlertsRoute.GET, CrisisPoller.fetchAlerts, CrisisPoller.fetchAlertsTry, okOfStatus]⟩
        | some b => simp [pollFailure] at hup

/-- C9 witness: a successful non-empty poll replaces the list, and a poll
through the proxy with a failing upstream (HTTP 500 at the proxy boundary)
leaves the previous list untouched. -/
theorem claim_C9_witness :
    CrisisPoller.fetchAlerts true (.response true (some ⟨some [7, 8]⟩)) [1] = [7, 8] ∧
    (((AlertsRoute.GET (PollOutcome.netError : PollOutcome Nat)).status = 502 ∨
        (AlertsRoute.GET (PollOutcome.netError : PollOutcome Nat)).status = 500) ∧
      okOfStatus (AlertsRoute.GET (PollOutcome.netError : PollOutcome Nat)).status = false ∧
      CrisisPoller.fetchAlerts true
        (.response (okOfStatus (AlertsRoute.GET (PollOutcome.netError : PollOutcome Nat)).status)
          (some ⟨(AlertsRoute.GET (PollOutcome.netError : PollOutcome Nat)).alerts⟩)) [1] = [1]) :=
  ⟨(claim_C9_poller_frame Nat).1 true [1] [7, 8] (by decide) rfl,
   (claim_C9_poller_frame Nat).2.2.2.2 PollOutcome.netError true [1] (by decide)⟩
